import Mathlib

/-!
Shallow embedding of the logger module in src/index.js, a
namespace-aware logging facade.  Pure fragments of the JavaScript
source are translated into Lean functions; the process-wide mutable
state (module.exports.configuration, the global configurations map,
the logfile) is modelled by explicit state passing.  Filesystem
lookups (readPkgUp, rootPath, Appdirectory) and clock reads (moment,
present) are impure collaborators: their results enter the model as
explicit parameters.  Machine details that the source relies on
(JavaScript Array.prototype.indexOf returning -1, two-complement
bitwise AND with 1, lodash defaultsDeep) are modelled explicitly
below, each with a comment naming the JavaScript behaviour it mirrors.
-/

namespace Logger

/-- The five log levels; src/index.js treats them as a closed set:
debug, log, info, warn, error. -/
inductive Loglevel where
  | debug
  | log
  | info
  | warn
  | error
deriving DecidableEq, Repr

/-- Uppercase name of a log level, from the lodash toUpper call on
line 222. -/
def loglevelUpper : Loglevel → String
  | .debug => "DEBUG"
  | .log => "LOG"
  | .info => "INFO"
  | .warn => "WARN"
  | .error => "ERROR"

/-- Source table colorDictionary (lines 103-109). -/
def colorDictionary : Loglevel → String
  | .debug => "cyan"
  | .log => "cyan"
  | .info => "magenta"
  | .warn => "yellow"
  | .error => "red"

/-- Source table loglevelRgbDictionary (lines 115-121). -/
def loglevelRgbDictionary : Loglevel → List Nat
  | .debug => [100, 100, 100]
  | .log => [0, 128, 255]
  | .info => [255, 100, 150]
  | .warn => [200, 100, 30]
  | .error => [230, 70, 50]

/-- Source table loglevelEmojiDictionary (lines 127-133). -/
def loglevelEmojiDictionary : Loglevel → String
  | .debug => "🔧"
  | .log => "📝"
  | .info => "ℹ️ "
  | .warn => "⚠️ "
  | .error => "🚨"

/-- The line separator os.EOL, modelled as the POSIX value. -/
def EOL : String := "\n"

/-- A fully materialised logger configuration (the LoggerOptions
typedef of lines 82-88, with every field present). -/
structure LoggerConfiguration where
  write : Bool
  timestamp : Bool
  «namespace» : String
  logfile : String
deriving DecidableEq, Repr

/-- An options object as supplied by a caller: each of the four
recognised keys may be absent (JavaScript undefined), modelled with
Option. -/
structure LoggerOptions where
  write : Option Bool := none
  timestamp : Option Bool := none
  «namespace» : Option String := none
  logfile : Option String := none
deriving DecidableEq, Repr

/-- lodash defaultsDeep at the shape used by the source (a flat object
with the four scalar keys write, timestamp, namespace, logfile):
destination keys that resolve to undefined are filled in from the
source object, defined destination keys win.  Used at lines 401 and
376. -/
def defaultsDeepConfig (options : LoggerOptions) (source : LoggerConfiguration) :
    LoggerConfiguration where
  write := options.write.getD source.write
  timestamp := options.timestamp.getD source.timestamp
  «namespace» := options.«namespace».getD source.«namespace»
  logfile := options.logfile.getD source.logfile

/-- Source object defaultLoggerOptions (lines 59-64).  The value
logfilePath is computed from the filesystem (lines 50-51), so it
enters the model as a parameter. -/
def defaultLoggerOptions (logfilePath : String) : LoggerConfiguration where
  write := false
  timestamp := true
  «namespace» := ""
  logfile := logfilePath

/-- Filesystem facts about the requiring module, as the source obtains
them in lines 412-415: the file path of the caller, its basename, the
directory of its nearest enclosing package.json (via readPkgUp), and
the name field of that manifest. -/
structure RequiringModule where
  filePath : String
  fileName : String
  directory : String
  name : String
deriving DecidableEq, Repr

/-- Lines 424-431: isLocalModule starts true and is set to false when
the manifest directory of the requiring module differs from the
top-level module directory. -/
def resolveIsLocalModule (requiringModuleDirectory toplevelModuleDirectory : String) : Bool :=
  if requiringModuleDirectory ≠ toplevelModuleDirectory then false else true

/-- Lines 439-445: the namespace is first set to the LOCAL form
(app, bar, ellipsis, slash, file) and overwritten with the THIRD-PARTY
form (app, bar, package name) when the module is not local. -/
def resolveNamespace (toplevelModulePackageName toplevelModuleDirectory : String)
    (requiring : RequiringModule) : String :=
  let isLocalModule := resolveIsLocalModule requiring.directory toplevelModuleDirectory
  let ns := toplevelModulePackageName ++ "|…/" ++ requiring.fileName
  if !isLocalModule then toplevelModulePackageName ++ "|" ++ requiring.name else ns

/-- Lines 399-449: the configuration built by the exported function:
options deep-merged over the defaults (line 401), then the namespace
field overwritten with the derived namespace (lines 440-445). -/
def createConfiguration (options : LoggerOptions) (logfilePath : String)
    (toplevelModulePackageName toplevelModuleDirectory : String)
    (requiring : RequiringModule) : LoggerConfiguration :=
  let configuration := defaultsDeepConfig options (defaultLoggerOptions logfilePath)
  { configuration with
    «namespace» := resolveNamespace toplevelModulePackageName toplevelModuleDirectory requiring }

/-- The global configurations map: an insertion-ordered map from
requiring-module file path to configuration, modelled as an
association list (a JavaScript Map preserves insertion order). -/
abbrev Registry := List (String × LoggerConfiguration)

/-- JavaScript Map set: update in place when the key exists (keeping
its position), otherwise append (line 465). -/
def registrySet (m : Registry) (k : String) (v : LoggerConfiguration) : Registry :=
  if m.any (fun p => p.1 = k) then
    m.map (fun p => if p.1 = k then (k, v) else p)
  else
    m ++ [(k, v)]

/-- JavaScript Map size (keys are unique, so the list length). -/
def registrySize (m : Registry) : Nat := m.length

/-- Line 239: the lodash map over the namespace fields of all values
of the configurations map, in insertion order. -/
def namespacesList (m : Registry) : List String :=
  m.map (fun p => p.2.«namespace»)

/-- JavaScript Array.prototype.indexOf: the index of the first
occurrence, -1 when absent (line 243). -/
def jsIndexOf : List String → String → Int
  | [], _ => -1
  | x :: xs, s =>
    if x = s then 0
    else if jsIndexOf xs s = -1 then -1 else jsIndexOf xs s + 1

/-- JavaScript bitwise AND of namespaceIndex with 1 (line 244) on a
two-complement integer: the mathematically nonnegative remainder
mod 2; in particular -1 AND 1 evaluates to 1. -/
def jsAnd1 (i : Int) : Int := i.emod 2

/-- Lines 238-244: the thread field of a LoggerMessage. -/
def messageThread (registry : Registry) (ns : String) : Int :=
  jsAnd1 (jsIndexOf (namespacesList registry) ns)

/-- JavaScript Array.prototype.join with separator a single space
(line 277). -/
def joinSpace : List String → String
  | [] => ""
  | [s] => s
  | s :: rest => s ++ " " ++ joinSpace rest

/-- Lines 270-283 of the LoggerMessage constructor, restricted to
already-serialized (string) arguments — the object-massaging loop in
lines 252-268 only rewrites object-like entries (lodash isObjectLike
is false on strings), so on a list of strings it is the identity.
  * more than one segment: the first becomes the title and is shifted
    off (lines 271-274);
  * body is the remaining segments joined with spaces (line 277);
  * line 280 replaces a falsy title with the body: this fires when the
    title is undefined (single-segment call) or the empty string;
  * line 283 clears the body when it equals the title. -/
def computeTitleBody (message : List String) : String × String :=
  let pair : Option String × List String :=
    if 1 < message.length then (some (message.headD ""), message.tail)
    else (none, message)
  let body := joinSpace pair.2
  let title :=
    match pair.1 with
    | some t => if t = "" then body else t
    | none => body
  let body2 := if title = body then "" else body
  (title, body2)

/-- The structured record built per call (class LoggerMessage,
lines 210-296).  The chalkstyle field only wraps a chalk styling
function selected by colorDictionary; we record the colour name. -/
structure LoggerMessage where
  loglevel : String
  emoji : String
  rgb : String
  chalkcolor : String
  title : String
  body : String
  «namespace» : String
  thread : Int
  timestamp : String
deriving DecidableEq, Repr

/-- The LoggerMessage constructor (lines 216-295) on already-serialized
arguments.  Here ts stands for the elapsed-time string computed from
the clock reads in lines 288-294 (a clock read, so a parameter); when
the timestamp flag of the configuration is off the field is empty
(line 293). -/
def mkLoggerMessage (loglevel : Loglevel) (cfg : LoggerConfiguration)
    (registry : Registry) (ts : String) (message : List String) : LoggerMessage :=
  let tb := computeTitleBody message
  { loglevel := loglevelUpper loglevel
    emoji := loglevelEmojiDictionary loglevel
    rgb := String.intercalate "," ((loglevelRgbDictionary loglevel).map toString)
    chalkcolor := colorDictionary loglevel
    title := tb.1
    body := tb.2
    «namespace» := cfg.«namespace»
    thread := messageThread registry cfg.«namespace»
    timestamp := if cfg.timestamp then ts else "" }

/-- JavaScript String.prototype.split at os.EOL (line 176), with
os.EOL the single newline character: split at every separator
occurrence, keeping empty segments (splitting a string that starts
with a newline yields a leading empty segment; splitting the empty
string yields one empty segment). -/
def splitOnEOLAux : List Char → List Char → List (List Char)
  | [], acc => [acc.reverse]
  | c :: cs, acc =>
    if c = '\n' then acc.reverse :: splitOnEOLAux cs []
    else splitOnEOLAux cs (c :: acc)

/-- Splitting a whole string at os.EOL. -/
def splitOnEOL (s : String) : List String :=
  (splitOnEOLAux s.toList []).map (fun l => String.mk l)

/-- Source function writeMessageToFile (lines 155-184) as a
transformation of the logfile contents (a list of lines): when the
write flag of the configuration is off or the nolog environment
override is active the file is left untouched (line 163); otherwise
the message is split on os.EOL and each line is appended prefixed with
the bracketed timestamp (lines 176-179).  Here ts stands for the
getCurrentTimestamp clock read. -/
def writeMessageToFile (nolog : Bool) (cfg : LoggerConfiguration) (ts : String)
    (file : List String) (message : String) : List String :=
  if !cfg.write || nolog then file
  else file ++ (splitOnEOL message).map (fun line => "[" ++ ts ++ "] " ++ line)

/-- The 80-character rule under the header (line 191). -/
def headerRule : String := String.mk (List.replicate 80 '▔')

/-- The header message of writeHeaderToFile (line 191). -/
def headerMessage (ts : String) : String :=
  EOL ++ "LOG STARTED (" ++ ts ++ ")" ++ EOL ++ headerRule

/-- Source function writeHeaderToFile (lines 190-192). -/
def writeHeaderToFile (nolog : Bool) (cfg : LoggerConfiguration) (ts : String)
    (file : List String) : List String :=
  writeMessageToFile nolog cfg ts file (headerMessage ts)

/-- Process-wide state touched by the exported initialization
function: whether the global registry object exists yet (lines
452-457), the configurations registry, and the logfile contents. -/
structure ProcessState where
  registryCreated : Bool
  registry : Registry
  file : List String
deriving DecidableEq, Repr

/-- The exported module function (lines 399-482) restricted to its
observable effects on the process state: build the configuration
(lines 401-449), lazily create the global registry (lines 452-457),
write the header when the registry size is exactly 1 — a check
performed BEFORE the new configuration is inserted (lines 459-462) —
and insert the configuration keyed by the requiring file path
(line 465).  The value module.exports.configuration has just been set
to the new configuration (line 449), so the header write is gated by
the write flag of the new configuration. -/
def initLogger (nolog : Bool) (logfilePath : String)
    (toplevelModulePackageName toplevelModuleDirectory : String)
    (st : ProcessState) (requiring : RequiringModule) (options : LoggerOptions)
    (ts : String) : ProcessState × LoggerConfiguration :=
  let configuration :=
    createConfiguration options logfilePath toplevelModulePackageName
      toplevelModuleDirectory requiring
  let registry := if st.registryCreated then st.registry else []
  let file :=
    if registrySize registry = 1 then writeHeaderToFile nolog configuration ts st.file
    else st.file
  ({ registryCreated := true
     registry := registrySet registry requiring.filePath configuration
     file := file },
   configuration)

/-- lodash startCase on the single lowercase words produced by
GetElectronProcessType (capitalises the word), line 326. -/
def startCase (s : String) : String := s.capitalize

/-- The plain line handed to writeMessageToFile by both sinks (the
util.format calls on lines 324-327 and 350-353). -/
def fileFormatMessage (contextType : String) (m : LoggerMessage) : String :=
  "[" ++ m.loglevel ++ "] [" ++ startCase contextType ++ "] [" ++ m.«namespace» ++ "] "
    ++ m.title ++ " " ++ m.body

/-- Source function printToBrowserConsole (lines 304-328): empty
messages return before any output (line 305); otherwise a
LoggerMessage is built, printed to the console (modelled as the
returned record) and mirrored to the logfile. -/
def printToBrowserConsole (nolog : Bool) (contextType : String)
    (cfg : LoggerConfiguration) (registry : Registry) (ts : String)
    (file : List String) (loglevel : Loglevel) (message : List String) :
    Option LoggerMessage × List String :=
  if message.length = 0 then (none, file)
  else
    let m := mkLoggerMessage loglevel cfg registry ts message
    (some m, writeMessageToFile nolog cfg ts file (fileFormatMessage contextType m))

/-- Source function printToTty (lines 336-354): same observable shape
as the browser sink — empty messages return before any output
(line 337), otherwise console output plus the logfile mirror. -/
def printToTty (nolog : Bool) (contextType : String)
    (cfg : LoggerConfiguration) (registry : Registry) (ts : String)
    (file : List String) (loglevel : Loglevel) (message : List String) :
    Option LoggerMessage × List String :=
  if message.length = 0 then (none, file)
  else
    let m := mkLoggerMessage loglevel cfg registry ts message
    (some m, writeMessageToFile nolog cfg ts file (fileFormatMessage contextType m))

/-- Source binding printToAny (line 360): context-aware selection of
the sink. -/
def printToAny (isBrowserContext : Bool) (nolog : Bool) (contextType : String)
    (cfg : LoggerConfiguration) (registry : Registry) (ts : String)
    (file : List String) (loglevel : Loglevel) (message : List String) :
    Option LoggerMessage × List String :=
  if isBrowserContext then
    printToBrowserConsole nolog contextType cfg registry ts file loglevel message
  else
    printToTty nolog contextType cfg registry ts file loglevel message

/-- One call of a log method of loggerInstance (lines 384-388): debug
is gated by the isDebug environment flag; the other four methods
forward to printToAny unconditionally. -/
def callLogMethod (loglevel : Loglevel) (isDebug isBrowserContext nolog : Bool)
    (contextType : String) (cfg : LoggerConfiguration) (registry : Registry)
    (ts : String) (file : List String) (args : List String) :
    Option LoggerMessage × List String :=
  match loglevel with
  | .debug =>
    if isDebug then
      printToAny isBrowserContext nolog contextType cfg registry ts file .debug args
    else (none, file)
  | lvl => printToAny isBrowserContext nolog contextType cfg registry ts file lvl args

/-- The per-call data of one log call in a sequence: the level, the
debug-flag reading, the configuration and registry view of the caller
at that moment, the timestamp read, and the serialized arguments. -/
structure LogCall where
  loglevel : Loglevel
  isDebug : Bool
  cfg : LoggerConfiguration
  registry : Registry
  ts : String
  args : List String

/-- Run a sequence of log calls, threading the logfile contents. -/
def runCalls (isBrowserContext nolog : Bool) (contextType : String)
    (file : List String) (calls : List LogCall) : List String :=
  calls.foldl
    (fun f c =>
      (callLogMethod c.loglevel c.isDebug isBrowserContext nolog contextType
        c.cfg c.registry c.ts f c.args).2)
    file

/-- Source function getConfiguration (line 368): returns the current
module.exports.configuration. -/
def getConfiguration (cfg : LoggerConfiguration) : LoggerConfiguration := cfg

/-- Source function setConfiguration (line 376): replaces
module.exports.configuration with the lodash defaultsDeep merge of the
options over the current configuration.  (The registry entry stored at
creation time is not updated.) -/
def setConfiguration (options : LoggerOptions) (cfg : LoggerConfiguration) :
    LoggerConfiguration :=
  defaultsDeepConfig options cfg

/-- Follows the words of the spec (sections 6 and 8.1): the deep-merge
of the supplied partial options over the previous configuration, with
the values of the caller winning — a field keeps the value of the
caller when supplied, and falls back to the value of the previous
configuration otherwise. -/
def specConfigurationMerge (options : LoggerOptions) (previous : LoggerConfiguration) :
    LoggerConfiguration where
  write := match options.write with | some b => b | none => previous.write
  timestamp := match options.timestamp with | some b => b | none => previous.timestamp
  «namespace» := match options.«namespace» with | some s => s | none => previous.«namespace»
  logfile := match options.logfile with | some s => s | none => previous.logfile

/-- A sample configuration used by concrete witnesses. -/
def sampleConfig (n : String) : LoggerConfiguration :=
  { write := false, timestamp := true, «namespace» := n, logfile := "app.log" }

/-- A registry in which the namespaces N1, N2, N1, N2 were registered
in that order under four distinct file paths. -/
def sampleRegistry : Registry :=
  [("f1", sampleConfig "N1"), ("f2", sampleConfig "N2"),
   ("f3", sampleConfig "N1"), ("f4", sampleConfig "N2")]

/-- The requiring module of the concrete header scenario. -/
def c1Requiring : RequiringModule :=
  { filePath := "/root/a.js", fileName := "a.js", directory := "/root", name := "app" }

/-- Options enabling file writing, for the concrete header scenario. -/
def c1Options : LoggerOptions := { write := some true }

/-- One logger initialization by the module of the header scenario, in
a process with the nolog override inactive. -/
def c1Step (st : ProcessState) : ProcessState :=
  (initLogger false "app.log" "app" "/root" st c1Requiring c1Options "T").1

/-- A sequence of two log calls whose configurations have the write
flag off, for the concrete no-write witness. -/
def c7Calls : List LogCall :=
  [{ loglevel := Loglevel.log, isDebug := true, cfg := sampleConfig "N1",
     registry := sampleRegistry, ts := "T", args := ["hello"] },
   { loglevel := Loglevel.error, isDebug := true, cfg := sampleConfig "N2",
     registry := sampleRegistry, ts := "T", args := ["boom", "x"] }]

/-! Helper lemmas about the JavaScript indexOf model. -/

/-- On a member of the list, jsIndexOf is nonnegative. -/
theorem jsIndexOf_nonneg_of_mem {l : List String} {s : String} (h : s ∈ l) :
    0 ≤ jsIndexOf l s := by
  induction l with
  | nil => simp at h
  | cons x xs ih =>
    by_cases hx : x = s
    · simp [jsIndexOf, hx]
    · have hs : s ∈ xs := by
        cases List.mem_cons.mp h with
        | inl h1 => exact absurd h1.symm hx
        | inr h1 => exact h1
      have hnn := ih hs
      simp only [jsIndexOf, if_neg hx]
      split <;> omega

/-- On a non-member, jsIndexOf returns -1. -/
theorem jsIndexOf_eq_neg_one {l : List String} {s : String} (h : s ∉ l) :
    jsIndexOf l s = -1 := by
  induction l with
  | nil => rfl
  | cons x xs ih =>
    have hx : x ≠ s := fun e => h (by simp [e])
    have hs : s ∉ xs := fun m => h (List.mem_cons_of_mem _ m)
    simp [jsIndexOf, hx, ih hs]

/-- On a member of the list, jsIndexOf agrees with the mathematical
first-occurrence index. -/
theorem jsIndexOf_eq_indexOf {l : List String} {s : String} (h : s ∈ l) :
    jsIndexOf l s = (l.indexOf s : Int) := by
  induction l with
  | nil => simp at h
  | cons x xs ih =>
    by_cases hx : x = s
    · subst hx
      simp [jsIndexOf, List.indexOf_cons_self]
    · have hs : s ∈ xs := by
        cases List.mem_cons.mp h with
        | inl h1 => exact absurd h1.symm hx
        | inr h1 => exact h1
      have hnn := jsIndexOf_nonneg_of_mem hs
      have hne : jsIndexOf xs s ≠ -1 := by omega
      rw [List.indexOf_cons_ne _ hx]
      simp only [jsIndexOf, if_neg hx, if_neg hne, ih hs]
      push_cast [Nat.succ_eq_add_one]
      ring

/-- jsIndexOf of the first occurrence in an explicit decomposition. -/
theorem jsIndexOf_append_cons {pre : List String} {s : String} (post : List String)
    (h : s ∉ pre) : jsIndexOf (pre ++ s :: post) s = (pre.length : Int) := by
  induction pre with
  | nil => simp [jsIndexOf]
  | cons x xs ih =>
    have hx : x ≠ s := fun e => h (by simp [e])
    have hs : s ∉ xs := fun m => h (List.mem_cons_of_mem _ m)
    have hmem : s ∈ xs ++ s :: post := by simp
    have hnn := jsIndexOf_nonneg_of_mem hmem
    have hne : jsIndexOf (xs ++ s :: post) s ≠ -1 := by omega
    simp only [List.cons_append, jsIndexOf, List.append_eq, if_neg hx, List.length_cons]
    rw [if_neg hne, ih hs]
    push_cast
    ring

/-! Helper lemmas about title and body extraction. -/

/-- A single-segment message becomes the title, with empty body. -/
theorem computeTitleBody_single (t : String) : computeTitleBody [t] = (t, "") := by
  simp [computeTitleBody, joinSpace]

/-- A message of at least two segments: the first segment becomes the
title unless it is empty, in which case the joined remainder takes its
place; the body is the joined remainder, cleared when it equals the
title. -/
theorem computeTitleBody_cons (t r : String) (rs : List String) :
    computeTitleBody (t :: r :: rs)
      = if t = "" then (joinSpace (r :: rs), "")
        else (t, if t = joinSpace (r :: rs) then "" else joinSpace (r :: rs)) := by
  have hlen : 1 < (t :: r :: rs).length := by
    simp only [List.length_cons]
    omega
  by_cases ht : t = "" <;> simp [computeTitleBody, hlen, ht]

/-! Helper lemmas about skipped file writes. -/

/-- Line 163: with the write flag off or the nolog override active,
writeMessageToFile leaves the file untouched. -/
theorem writeMessageToFile_skip {nolog : Bool} {cfg : LoggerConfiguration} {ts : String}
    {file : List String} {message : String} (h : cfg.write = false ∨ nolog = true) :
    writeMessageToFile nolog cfg ts file message = file := by
  unfold writeMessageToFile
  rcases h with h | h <;> simp [h]

/-- Any log method call leaves the file untouched when the write flag
is off or the nolog override is active. -/
theorem callLogMethod_skip_file {loglevel : Loglevel} {isDebug isBrowserContext nolog : Bool}
    {contextType : String} {cfg : LoggerConfiguration} {registry : Registry} {ts : String}
    {file : List String} {args : List String} (h : cfg.write = false ∨ nolog = true) :
    (callLogMethod loglevel isDebug isBrowserContext nolog contextType
      cfg registry ts file args).2 = file := by
  have hp : ∀ lvl : Loglevel,
      (printToAny isBrowserContext nolog contextType cfg registry ts file lvl args).2
        = file := by
    intro lvl
    unfold printToAny printToTty printToBrowserConsole
    by_cases hb : isBrowserContext <;> by_cases ha : args.length = 0 <;>
      simp [hb, ha, writeMessageToFile_skip h]
  cases loglevel with
  | debug => by_cases hd : isDebug <;> simp [callLogMethod, hd, hp .debug]
  | log => simpa [callLogMethod] using hp .log
  | info => simpa [callLogMethod] using hp .info
  | warn => simpa [callLogMethod] using hp .warn
  | error => simpa [callLogMethod] using hp .error

/-! The claims. -/

/-- C1: the claim says one header block is appended at the very first
logger initialization in the process, before any message lines, and
exactly once per process.  The code checks the registry size BEFORE
inserting the new configuration (lines 459-465), so the very first
initialization (registry size 0) writes NO header, while every later
initialization performed while exactly one configuration is registered
writes one: with the same module initializing three times, the file
holds zero header blocks after the first initialization and two after
the third. -/
theorem c1_header_not_at_first_initialization :
    (c1Step { registryCreated := false, registry := [], file := [] }).file = [] ∧
    (c1Step (c1Step { registryCreated := false, registry := [], file := [] })).file
      = ["[T] ", "[T] LOG STARTED (T)", "[T] " ++ headerRule] ∧
    (c1Step (c1Step (c1Step { registryCreated := false, registry := [], file := [] }))).file
      = ["[T] ", "[T] LOG STARTED (T)", "[T] " ++ headerRule,
         "[T] ", "[T] LOG STARTED (T)", "[T] " ++ headerRule] := by
  refine ⟨by decide, by decide, by decide⟩

/-- C2: for a log call whose namespace is among the currently
registered namespaces, the thread parity of the record is the
first-occurrence index of that namespace in registration order,
modulo 2; in particular registering N1, N2, N1, N2 in that order
yields parities 0, 1, 0, 1 for lookups in that registration order. -/
theorem c2_threadParity_index_mod_two :
    (∀ (loglevel : Loglevel) (cfg : LoggerConfiguration) (registry : Registry)
        (ts : String) (message : List String),
        cfg.«namespace» ∈ namespacesList registry →
        (mkLoggerMessage loglevel cfg registry ts message).thread
          = ((namespacesList registry).indexOf cfg.«namespace» : Int) % 2) ∧
    (sampleRegistry.map
        (fun p => (mkLoggerMessage Loglevel.log p.2 sampleRegistry "T" ["m"]).thread)
      = [0, 1, 0, 1]) := by
  constructor
  · intro loglevel cfg registry ts message h
    show messageThread registry cfg.«namespace» = _
    unfold messageThread jsAnd1
    rw [jsIndexOf_eq_indexOf h]
    rfl
  · decide

/-- Witness for C2 at a concrete registry and namespace. -/
theorem c2_threadParity_witness :
    (mkLoggerMessage Loglevel.log (sampleConfig "N2") sampleRegistry "" ["m"]).thread = 1 := by
  have h := c2_threadParity_index_mod_two.1 Loglevel.log (sampleConfig "N2")
    sampleRegistry "" ["m"] (by decide)
  rw [h]
  decide

/-- C3 counterexample: a caller-supplied namespace does not win — the
exported function overwrites the namespace with the derived one
(lines 440-445), so the resulting configuration differs from the
deep-merge of the options onto the defaults. -/
theorem c3_counterexample_namespace_overridden :
    createConfiguration { «namespace» := some "custom" } "app.log" "app" "/root"
        { filePath := "/root/main.js", fileName := "main.js",
          directory := "/root", name := "app" }
      ≠ defaultsDeepConfig { «namespace» := some "custom" }
          (defaultLoggerOptions "app.log") := by
  decide

/-- C3 amended: the configuration built by the exported function is
the deep-merge of the options onto the defaults — caller values win —
for the write, timestamp and logfile fields, while the namespace field
is always overwritten with the namespace derived from the requiring
module; a caller-supplied namespace is ignored. -/
theorem c3_amended_options_merge (options : LoggerOptions) (logfilePath : String)
    (appName appRoot : String) (requiring : RequiringModule) :
    createConfiguration options logfilePath appName appRoot requiring
      = { specConfigurationMerge options (defaultLoggerOptions logfilePath) with
          «namespace» := resolveNamespace appName appRoot requiring } := by
  obtain ⟨w, t, n, f⟩ := options
  cases w <;> cases t <;> cases n <;> cases f <;> rfl

/-- C4 counterexample: with an empty string as the first of two
arguments the claim predicts title empty and body x, but line 280
replaces the falsy empty title with the body and line 283 then clears
the body, producing title x and empty body. -/
theorem c4_counterexample_empty_first_argument :
    ((mkLoggerMessage Loglevel.log (sampleConfig "N1") sampleRegistry "" ["", "x"]).title,
     (mkLoggerMessage Loglevel.log (sampleConfig "N1") sampleRegistry "" ["", "x"]).body)
      = ("x", "") ∧
    ("x", "") ≠ ("", "x") := by
  exact ⟨by decide, by decide⟩

/-- C4 amended: with more than one already-serialized argument whose
first element is nonempty, the first element becomes the title and the
rest joined with single spaces the body (cleared when equal to the
title); with exactly one argument, that argument is the title and the
body is empty; with more than one argument whose first element is the
empty string, the joined rest becomes the title and the body is
cleared. -/
theorem c4_amended_title_body (loglevel : Loglevel) (cfg : LoggerConfiguration)
    (registry : Registry) (ts : String) (t : String) (rest : List String) :
    ((mkLoggerMessage loglevel cfg registry ts [t]).title = t ∧
     (mkLoggerMessage loglevel cfg registry ts [t]).body = "") ∧
    (rest ≠ [] → t ≠ "" →
      (mkLoggerMessage loglevel cfg registry ts (t :: rest)).title = t ∧
      (mkLoggerMessage loglevel cfg registry ts (t :: rest)).body
        = (if t = joinSpace rest then "" else joinSpace rest)) ∧
    (rest ≠ [] →
      (mkLoggerMessage loglevel cfg registry ts ("" :: rest)).title = joinSpace rest ∧
      (mkLoggerMessage loglevel cfg registry ts ("" :: rest)).body = "") := by
  refine ⟨?_, ?_, ?_⟩
  · constructor
    · show (computeTitleBody [t]).1 = t
      rw [computeTitleBody_single]
    · show (computeTitleBody [t]).2 = ""
      rw [computeTitleBody_single]
  · intro hrest ht
    cases rest with
    | nil => exact absurd rfl hrest
    | cons r rs =>
      constructor
      · show (computeTitleBody (t :: r :: rs)).1 = t
        rw [computeTitleBody_cons, if_neg ht]
      · show (computeTitleBody (t :: r :: rs)).2 = _
        rw [computeTitleBody_cons, if_neg ht]
  · intro hrest
    cases rest with
    | nil => exact absurd rfl hrest
    | cons r rs =>
      constructor
      · show (computeTitleBody ("" :: r :: rs)).1 = _
        rw [computeTitleBody_cons, if_pos rfl]
      · show (computeTitleBody ("" :: r :: rs)).2 = ""
        rw [computeTitleBody_cons, if_pos rfl]

/-- Witness for C4 at a concrete three-argument call. -/
theorem c4_title_body_witness :
    (mkLoggerMessage Loglevel.log (sampleConfig "N1") [] "" ["a", "b", "c"]).title = "a" ∧
    (mkLoggerMessage Loglevel.log (sampleConfig "N1") [] "" ["a", "b", "c"]).body = "b c" := by
  have h := (c4_amended_title_body Loglevel.log (sampleConfig "N1") [] "" "a" ["b", "c"]).2.1
    (by decide) (by decide)
  refine ⟨h.1, ?_⟩
  rw [h.2]
  decide

/-- C5: the exported function classifies the requiring module as local
exactly when the directory of its nearest enclosing package manifest
equals the root directory of the application, and derives the LOCAL
namespace from the caller file basename and the THIRD-PARTY namespace
from the caller package name. -/
theorem c5_local_classification (options : LoggerOptions) (logfilePath : String)
    (appName appRoot : String) (requiring : RequiringModule) :
    (resolveIsLocalModule requiring.directory appRoot = true ↔
      requiring.directory = appRoot) ∧
    (requiring.directory = appRoot →
      (createConfiguration options logfilePath appName appRoot requiring).«namespace»
        = appName ++ "|…/" ++ requiring.fileName) ∧
    (requiring.directory ≠ appRoot →
      (createConfiguration options logfilePath appName appRoot requiring).«namespace»
        = appName ++ "|" ++ requiring.name) := by
  refine ⟨?_, ?_, ?_⟩
  · unfold resolveIsLocalModule
    by_cases h : requiring.directory = appRoot <;> simp [h]
  · intro h
    simp [createConfiguration, resolveNamespace, resolveIsLocalModule, h]
  · intro h
    simp [createConfiguration, resolveNamespace, resolveIsLocalModule, h]

/-- Witness for C5: a local and a third-party concrete caller. -/
theorem c5_local_classification_witness :
    (createConfiguration {} "app.log" "app" "/root"
        { filePath := "/root/main.js", fileName := "main.js",
          directory := "/root", name := "pkg" }).«namespace»
      = "app|…/main.js" ∧
    (createConfiguration {} "app.log" "app" "/root"
        { filePath := "/x/m.js", fileName := "m.js",
          directory := "/x/node_modules/pkg", name := "pkg" }).«namespace»
      = "app|pkg" := by
  refine ⟨(c5_local_classification {} "app.log" "app" "/root" _).2.1 rfl,
          (c5_local_classification {} "app.log" "app" "/root" _).2.2 (by decide)⟩

/-- C6: setConfiguration followed by getConfiguration returns the
deep-merge of the supplied partial options over the previous
configuration, with caller values winning. -/
theorem c6_set_get_deep_merge (options : LoggerOptions) (previous : LoggerConfiguration) :
    getConfiguration (setConfiguration options previous)
      = specConfigurationMerge options previous := by
  obtain ⟨w, t, n, f⟩ := options
  cases w <;> cases t <;> cases n <;> cases f <;> rfl

/-- C7: across any sequence of log calls during which the write flag of
the configuration seen by each call is off or the nolog override is
active, the logfile contents are unchanged. -/
theorem c7_no_write_no_bytes (isBrowserContext nolog : Bool) (contextType : String)
    (file : List String) (calls : List LogCall)
    (h : ∀ c ∈ calls, c.cfg.write = false ∨ nolog = true) :
    runCalls isBrowserContext nolog contextType file calls = file := by
  induction calls generalizing file with
  | nil => rfl
  | cons c cs ih =>
    have hc := h c (List.mem_cons_self c cs)
    have hcs : ∀ x ∈ cs, x.cfg.write = false ∨ nolog = true :=
      fun x hx => h x (List.mem_cons_of_mem _ hx)
    unfold runCalls
    rw [List.foldl_cons, callLogMethod_skip_file hc]
    simpa [runCalls] using ih file hcs

/-- Witness for C7 on a concrete two-call sequence. -/
theorem c7_no_write_witness :
    runCalls false false "browser" ["pre"] c7Calls = ["pre"] :=
  c7_no_write_no_bytes false false "browser" ["pre"] c7Calls (by decide)

/-- C8: calling any log method with an empty argument list produces no
console output and no file write: it is a no-op. -/
theorem c8_empty_args_noop (loglevel : Loglevel) (isDebug isBrowserContext nolog : Bool)
    (contextType : String) (cfg : LoggerConfiguration) (registry : Registry)
    (ts : String) (file : List String) :
    callLogMethod loglevel isDebug isBrowserContext nolog contextType cfg registry ts file []
      = (none, file) := by
  cases loglevel <;> cases isDebug <;> cases isBrowserContext <;>
    simp [callLogMethod, printToAny, printToTty, printToBrowserConsole]

/-- C9: two records produced against the same registry by callers
whose configurations carry the same namespace string have the same
thread parity; the parity is determined by the position of the first
occurrence of the namespace in the registered-namespace list. -/
theorem c9_same_namespace_same_parity :
    (∀ (registry : Registry) (lvl1 lvl2 : Loglevel) (cfg1 cfg2 : LoggerConfiguration)
        (ts1 ts2 : String) (msg1 msg2 : List String),
        cfg1.«namespace» = cfg2.«namespace» →
        (mkLoggerMessage lvl1 cfg1 registry ts1 msg1).thread
          = (mkLoggerMessage lvl2 cfg2 registry ts2 msg2).thread) ∧
    (∀ (registry : Registry) (cfg : LoggerConfiguration) (lvl : Loglevel)
        (ts : String) (msg : List String) (pre post : List String),
        namespacesList registry = pre ++ cfg.«namespace» :: post →
        cfg.«namespace» ∉ pre →
        (mkLoggerMessage lvl cfg registry ts msg).thread = (pre.length : Int) % 2) := by
  constructor
  · intro registry lvl1 lvl2 cfg1 cfg2 ts1 ts2 msg1 msg2 h
    show messageThread registry cfg1.«namespace»
      = messageThread registry cfg2.«namespace»
    rw [h]
  · intro registry cfg lvl ts msg pre post hsplit hpre
    show messageThread registry cfg.«namespace» = _
    unfold messageThread jsAnd1
    rw [hsplit, jsIndexOf_append_cons post hpre]
    rfl

/-- Witness for C9: two callers sharing the namespace N2 produce the
same parity against the sample registry. -/
theorem c9_same_namespace_witness :
    (mkLoggerMessage Loglevel.log (sampleConfig "N2") sampleRegistry "" ["a"]).thread
      = (mkLoggerMessage Loglevel.warn
          { write := true, timestamp := false, «namespace» := "N2",
            logfile := "other.log" } sampleRegistry "x" ["b", "c"]).thread :=
  c9_same_namespace_same_parity.1 sampleRegistry _ _ _ _ _ _ _ _ rfl

/-- C10: a caller whose current configuration namespace occurs nowhere
in the registered-namespace list (possible after setConfiguration
replaces the configuration object while the registry keeps the object
stored at creation time) always produces records with thread parity 1,
because indexOf returns -1 and -1 AND 1 is 1. -/
theorem c10_unregistered_namespace_parity_one (loglevel : Loglevel)
    (cfg : LoggerConfiguration) (registry : Registry) (ts : String) (message : List String)
    (h : cfg.«namespace» ∉ namespacesList registry) :
    (mkLoggerMessage loglevel cfg registry ts message).thread = 1 := by
  show messageThread registry cfg.«namespace» = 1
  unfold messageThread jsAnd1
  rw [jsIndexOf_eq_neg_one h]
  rfl

/-- Witness for C10 at a namespace absent from the sample registry. -/
theorem c10_unregistered_witness :
    (mkLoggerMessage Loglevel.log (sampleConfig "ghost") sampleRegistry "" ["m"]).thread
      = 1 :=
  c10_unregistered_namespace_parity_one Loglevel.log (sampleConfig "ghost")
    sampleRegistry "" ["m"] (by decide)

end Logger
